import Mathlib

/-!
Shallow embedding of the inventory-state-transition logic of the EcoCycle IMS
backend: the transaction service (`createTransactionService`,
`deleteTransactionService`), the transfer service (`createTransferService`,
`updateTransferService`, `updateTransferStatusService`,
`completeTransferService`) and the order service (`updateOrderService`).

Modelling conventions:
* Entity ids (warehouse, product, user, transaction, transfer, order) are `Nat`.
* Integer database columns (`quantity`, `reserved`, `available`, item
  quantities) are `Int`, matching the SQL `INTEGER` schema.
* The inventory table is a map from the unique key `(warehouseId, productId)`
  to an optional row, mirroring Prisma's `warehouseId_productId` unique index.
* Each service is a pure function `Db → ... → Except String (Db × result)`.
  A thrown JS error inside a `prisma.$transaction` block rolls the whole
  database transaction back, so an `Except.error` carries no database state:
  the caller keeps the unchanged `Db`.
* Fields that no claim touches (prices, timestamps other than `completedAt`,
  reorder status, aisle/shelf/bin, customer data) are omitted; `new Date()`
  timestamps are passed in as a `now : Nat` parameter where a claim needs one.
* Prisma's `update` on a missing row throws; the order-service inventory
  loops model that with `Except.error`.
-/

namespace IMS

/-- One row of the `Inventory` table (the columns the stock rules touch). -/
structure Inventory where
  quantity : Int
  reserved : Int
  available : Int
deriving DecidableEq, Repr

/-- The inventory table, keyed by the unique `(warehouseId, productId)` pair. -/
abbrev InvMap := Nat × Nat → Option Inventory

/-- Point update of the inventory table at one key. -/
def setInv (m : InvMap) (k : Nat × Nat) (v : Inventory) : InvMap :=
  fun k' => if k' = k then some v else m k'

/-- The `TransactionType` enum. -/
inductive TxType
  | STOCK_IN
  | STOCK_OUT
  | ADJUSTMENT
  | RETURN
  | WASTE
  | RECYCLING
deriving DecidableEq, Repr

/-- An input line item of `createTransactionService` (`data.items[i]`). -/
structure TxItemInput where
  productId : Nat
  quantity : Int
deriving DecidableEq, Repr

/-- A persisted `TransactionItem` row (columns the stock rules touch). -/
structure TransactionItem where
  productId : Nat
  quantity : Int
  previousQty : Option Int
  newQty : Option Int
deriving DecidableEq, Repr

/-- A persisted `Transaction` row with its child items. -/
structure Transaction where
  id : Nat
  txType : TxType
  warehouseId : Nat
  items : List TransactionItem
deriving DecidableEq, Repr

/-- The `TransferStatus` enum. -/
inductive TransferStatus
  | PENDING
  | IN_TRANSIT
  | COMPLETED
  | CANCELLED
deriving DecidableEq, Repr

/-- A `TransferItem` row. -/
structure TransferItem where
  productId : Nat
  quantity : Int
deriving DecidableEq, Repr

/-- A persisted `Transfer` row with its child items. -/
structure Transfer where
  id : Nat
  sourceWarehouseId : Nat
  destWarehouseId : Nat
  status : TransferStatus
  notes : Option String
  estimatedArrival : Option Nat
  completedAt : Option Nat
  items : List TransferItem
deriving DecidableEq, Repr

/-- The `OrderStatus` enum. -/
inductive OrderStatus
  | NEW
  | PROCESSING
  | PICKING
  | PACKED
  | SHIPPED
  | DELIVERED
  | CANCELLED
  | RETURNED
deriving DecidableEq, Repr

/-- An `OrderItem` row. -/
structure OrderItem where
  productId : Nat
  quantity : Int
deriving DecidableEq, Repr

/-- A persisted `Order` row (fields the status/stock rules touch). -/
structure Order where
  id : Nat
  status : OrderStatus
  fulfillmentWarehouseId : Option Nat
  items : List OrderItem
deriving DecidableEq, Repr

/-- The database: the referenced entity tables, the inventory table, and the
persisted transactions, transfers and orders. -/
structure Db where
  warehouses : List Nat
  users : List Nat
  products : List Nat
  inventory : InvMap
  transactions : List Transaction
  transfers : List Transfer
  orders : List Order

/-! ## Transaction service (`transactionServices.ts`) -/

/-- `const stockOutTypes = ["STOCK_OUT", "WASTE", "RECYCLING"]`. -/
def stockOutTypes : List TxType := [.STOCK_OUT, .WASTE, .RECYCLING]

/-- The error message thrown by the stock-sufficiency check
(`Insufficient stock for product ...`, with the product id standing in for
the looked-up product name). -/
def insufficientMsg (pid : Nat) : String :=
  "Insufficient stock for product " ++ toString pid

/-- The per-item condition of the stock check:
`!inventory || inventory.available < item.quantity`. -/
def insufficientFor (inv : InvMap) (warehouseId : Nat) (it : TxItemInput) : Bool :=
  match inv (warehouseId, it.productId) with
  | none => true
  | some r => r.available < it.quantity

/-- The stock-sufficiency loop of `createTransactionService`: for each item of
an outbound transaction, throw if the inventory row is missing or its
`available` is below the requested quantity. -/
def checkStock (inv : InvMap) (warehouseId : Nat) : List TxItemInput → Except String Unit
  | [] => .ok ()
  | it :: rest =>
    if insufficientFor inv warehouseId it then .error (insufficientMsg it.productId)
    else checkStock inv warehouseId rest

/-- The validation phase of `createTransactionService`: warehouse, user and
product existence, then the stock check for outbound types. -/
def validateCreateTx (db : Db) (data_type : TxType) (warehouseId performedById : Nat)
    (items : List TxItemInput) : Except String Unit :=
  if warehouseId ∈ db.warehouses then
    if performedById ∈ db.users then
      if items.all (fun it => decide (it.productId ∈ db.products)) then
        if data_type ∈ stockOutTypes then checkStock db.inventory warehouseId items
        else .ok ()
      else .error "Products not found"
    else .error "User not found"
  else .error "Warehouse not found"

/-- The per-item inventory update of `createTransactionService`, together with
the `updateMany` that records `previousQty`/`newQty` on the transaction items
of an ADJUSTMENT. Acts on the inventory table and the created transaction's
item list. -/
def applyTxItem (ty : TxType) (warehouseId : Nat) (it : TxItemInput)
    (inv : InvMap) (txItems : List TransactionItem) : InvMap × List TransactionItem :=
  match inv (warehouseId, it.productId) with
  | some existing =>
    let updated : Inventory :=
      match ty with
      | .STOCK_IN | .RETURN =>
        { existing with quantity := existing.quantity + it.quantity,
                        available := existing.available + it.quantity }
      | .STOCK_OUT | .WASTE | .RECYCLING =>
        { existing with quantity := existing.quantity - it.quantity,
                        available := existing.available - it.quantity }
      | .ADJUSTMENT =>
        { existing with quantity := it.quantity,
                        available := max 0 (it.quantity - existing.reserved) }
    let inv' := setInv inv (warehouseId, it.productId) updated
    let txItems' :=
      if ty = .ADJUSTMENT then
        txItems.map (fun ti =>
          if ti.productId = it.productId then
            { ti with previousQty := some existing.quantity, newQty := some it.quantity }
          else ti)
      else txItems
    (inv', txItems')
  | none =>
    if ty = .STOCK_IN ∨ ty = .RETURN then
      (setInv inv (warehouseId, it.productId)
        { quantity := it.quantity, reserved := 0, available := it.quantity }, txItems)
    else (inv, txItems)

/-- The persistence phase of `createTransactionService`: create the transaction
with its items, then run the inventory-update loop over the input items. -/
def applyCreateTx (db : Db) (newId : Nat) (data_type : TxType) (warehouseId : Nat)
    (items : List TxItemInput) : Db × Transaction :=
  let itemsData : List TransactionItem := items.map (fun it =>
    { productId := it.productId, quantity := it.quantity, previousQty := none, newQty := none })
  let res := items.foldl
    (fun acc it => applyTxItem data_type warehouseId it acc.1 acc.2)
    (db.inventory, itemsData)
  let txn : Transaction :=
    { id := newId, txType := data_type, warehouseId := warehouseId, items := res.2 }
  ({ db with inventory := res.1, transactions := db.transactions ++ [txn] }, txn)

/-- `createTransactionService`: validate, then persist the transaction and
apply the per-type inventory rule to each item. An error anywhere rolls the
whole database transaction back (no state is returned). -/
def createTransactionService (db : Db) (newId : Nat) (data_type : TxType)
    (warehouseId performedById : Nat) (items : List TxItemInput) :
    Except String (Db × Transaction) :=
  match validateCreateTx db data_type warehouseId performedById items with
  | .error e => .error e
  | .ok _ => .ok (applyCreateTx db newId data_type warehouseId items)

/-- The per-item reversal step of `deleteTransactionService`: mirror the
creation rule; ADJUSTMENT restores `previousQty` when it was recorded. A
missing inventory row is skipped. -/
def reverseTxItem (ty : TxType) (warehouseId : Nat) (it : TransactionItem)
    (inv : InvMap) : InvMap :=
  match inv (warehouseId, it.productId) with
  | some existing =>
    let updated : Inventory :=
      match ty with
      | .STOCK_IN | .RETURN =>
        { existing with quantity := existing.quantity - it.quantity,
                        available := existing.available - it.quantity }
      | .STOCK_OUT | .WASTE | .RECYCLING =>
        { existing with quantity := existing.quantity + it.quantity,
                        available := existing.available + it.quantity }
      | .ADJUSTMENT =>
        match it.previousQty with
        | some prev =>
          { existing with quantity := prev, available := max 0 (prev - existing.reserved) }
        | none => existing
    setInv inv (warehouseId, it.productId) updated
  | none => inv

/-- `deleteTransactionService`: look the transaction up, reverse its inventory
effect item by item, then delete the items and the transaction. -/
def deleteTransactionService (db : Db) (id : Nat) : Except String Db :=
  match db.transactions.find? (fun t => t.id == id) with
  | none => .error "Transaction not found"
  | some txn =>
    let inv' := txn.items.foldl
      (fun m it => reverseTxItem txn.txType txn.warehouseId it m) db.inventory
    .ok { db with inventory := inv',
                  transactions := db.transactions.filter (fun t => ¬ t.id == id) }

/-! ## Transfer service (`warehouseServices.ts`) -/

/-- The per-item condition of the transfer-creation stock check:
the source inventory row is missing, or `inventory.quantity < item.quantity`
(note: the code compares the `quantity` column, not `available`). -/
def transferShortFor (inv : InvMap) (sourceWarehouseId : Nat) (it : TransferItem) : Bool :=
  match inv (sourceWarehouseId, it.productId) with
  | none => true
  | some r => r.quantity < it.quantity

/-- The stock-availability loop of `createTransferService`. -/
def checkTransferStock (inv : InvMap) (sourceWarehouseId : Nat) :
    List TransferItem → Except String Unit
  | [] => .ok ()
  | it :: rest =>
    match inv (sourceWarehouseId, it.productId) with
    | none => .error ("Product " ++ toString it.productId ++ " not available in source warehouse")
    | some r =>
      if r.quantity < it.quantity then
        .error ("Insufficient stock for product " ++ toString it.productId)
      else checkTransferStock inv sourceWarehouseId rest

/-- `createTransferService`: field/equality validation, warehouse and user
existence, a stock check against the source warehouse, then persist the
PENDING transfer and its items. No inventory row is written. (The falsy
checks on required string fields and the transfer-number generation are not
modelled; the ids are always supplied here.) -/
def createTransferService (db : Db) (newId : Nat)
    (sourceWarehouseId destinationWarehouseId requestedById : Nat)
    (items : List TransferItem) (notes : Option String) (estimatedArrival : Option Nat) :
    Except String (Db × Transfer) :=
  if sourceWarehouseId = destinationWarehouseId then
    .error "Source and destination warehouses cannot be the same"
  else if items.isEmpty then
    .error "Transfer must contain at least one item"
  else if sourceWarehouseId ∉ db.warehouses then
    .error "Source warehouse not found"
  else if destinationWarehouseId ∉ db.warehouses then
    .error "Destination warehouse not found"
  else if requestedById ∉ db.users then
    .error "Requested by user not found"
  else
    match checkTransferStock db.inventory sourceWarehouseId items with
    | .error e => .error e
    | .ok _ =>
      let transfer : Transfer :=
        { id := newId, sourceWarehouseId := sourceWarehouseId,
          destWarehouseId := destinationWarehouseId, status := .PENDING,
          notes := notes, estimatedArrival := estimatedArrival,
          completedAt := none, items := items }
      .ok ({ db with transfers := db.transfers ++ [transfer] }, transfer)

/-- Replace the transfer with the given id in the transfer table. -/
def putTransfer (transfers : List Transfer) (id : Nat) (t : Transfer) : List Transfer :=
  transfers.map (fun x => if x.id == id then t else x)

/-- `updateTransferService`: reject when the transfer is COMPLETED or
CANCELLED, otherwise update `notes`, `estimatedArrival` and `status` (each
falling back to the existing value when absent from the request). -/
def updateTransferService (db : Db) (id : Nat) (notes : Option String)
    (estimatedArrival : Option Nat) (status : Option TransferStatus) :
    Except String (Db × Transfer) :=
  match db.transfers.find? (fun t => t.id == id) with
  | none => .error "Transfer not found"
  | some existing =>
    if existing.status = .COMPLETED ∨ existing.status = .CANCELLED then
      .error "Cannot update a completed or cancelled transfer"
    else
      let updated : Transfer :=
        { existing with
          notes := match notes with | some n => some n | none => existing.notes,
          estimatedArrival :=
            match estimatedArrival with | some e => some e | none => existing.estimatedArrival,
          status := status.getD existing.status }
      .ok ({ db with transfers := putTransfer db.transfers id updated }, updated)

/-- `updateTransferStatusService`: look the transfer up and set its status
(stamping `completedAt` when the new status is COMPLETED). The current status
is not checked. -/
def updateTransferStatusService (db : Db) (id : Nat) (status : TransferStatus)
    (now : Nat) : Except String (Db × Transfer) :=
  match db.transfers.find? (fun t => t.id == id) with
  | none => .error "Transfer not found"
  | some transfer =>
    let updated : Transfer :=
      { transfer with
        status := status,
        completedAt := if status = .COMPLETED then some now else transfer.completedAt }
    .ok ({ db with transfers := putTransfer db.transfers id updated }, updated)

/-- The per-item pair of upserts of `completeTransferService`: decrement the
source row's `quantity` (creating the row with `quantity = -q`, `available
= 0`, `reserved = 0` when absent), then increment the destination row's
`quantity` (creating it with `quantity = available = q`, `reserved = 0` when
absent). Neither upsert's update branch touches `available` or `reserved`. -/
def transferStep (src dest : Nat) (it : TransferItem) (m : InvMap) : InvMap :=
  let m₁ :=
    match m (src, it.productId) with
    | some r => setInv m (src, it.productId) { r with quantity := r.quantity - it.quantity }
    | none => setInv m (src, it.productId)
        { quantity := -it.quantity, reserved := 0, available := 0 }
  match m₁ (dest, it.productId) with
  | some r => setInv m₁ (dest, it.productId) { r with quantity := r.quantity + it.quantity }
  | none => setInv m₁ (dest, it.productId)
      { quantity := it.quantity, reserved := 0, available := it.quantity }

/-- `completeTransferService`: the transfer must exist and be PENDING and the
completer must exist; then each item's stock moves from source to destination
and the transfer is marked COMPLETED with a completion timestamp. -/
def completeTransferService (db : Db) (id : Nat) (completedBy : Nat) (now : Nat) :
    Except String (Db × Transfer) :=
  match db.transfers.find? (fun t => t.id == id) with
  | none => .error "Transfer not found"
  | some transfer =>
    if transfer.status ≠ .PENDING then
      .error "Transfer must be pending before completion"
    else if completedBy ∉ db.users then
      .error "Completer not found"
    else
      let inv' := transfer.items.foldl
        (fun m it => transferStep transfer.sourceWarehouseId transfer.destWarehouseId it m)
        db.inventory
      let updated : Transfer :=
        { transfer with status := .COMPLETED, completedAt := some now }
      .ok ({ db with inventory := inv',
                     transfers := putTransfer db.transfers id updated }, updated)

/-! ## Order service (`orderServices.ts`) -/

/-- The fixed adjacency table of legal order status transitions
(`validTransitions` in `updateOrderService`). -/
def validTransitions : OrderStatus → List OrderStatus
  | .NEW => [.PROCESSING, .CANCELLED]
  | .PROCESSING => [.PICKING, .CANCELLED]
  | .PICKING => [.PACKED, .CANCELLED]
  | .PACKED => [.SHIPPED, .CANCELLED]
  | .SHIPPED => [.DELIVERED, .RETURNED]
  | .DELIVERED => [.RETURNED]
  | .CANCELLED => []
  | .RETURNED => []

/-- The cancellation loop of `updateOrderService`: for each order item,
`reserved -= q`, `available += q` on the fulfillment warehouse's row.
Prisma's `update` throws when the row is missing. -/
def releaseReservedLoop (warehouseId : Nat) : List OrderItem → InvMap → Except String InvMap
  | [], m => .ok m
  | it :: rest, m =>
    match m (warehouseId, it.productId) with
    | none => .error "Inventory record not found"
    | some r =>
      releaseReservedLoop warehouseId rest (setInv m (warehouseId, it.productId)
        { r with reserved := r.reserved - it.quantity, available := r.available + it.quantity })

/-- The return loop of `updateOrderService`: for each order item,
`quantity += q`, `available += q` on the fulfillment warehouse's row. -/
def restockLoop (warehouseId : Nat) : List OrderItem → InvMap → Except String InvMap
  | [], m => .ok m
  | it :: rest, m =>
    match m (warehouseId, it.productId) with
    | none => .error "Inventory record not found"
    | some r =>
      restockLoop warehouseId rest (setInv m (warehouseId, it.productId)
        { r with quantity := r.quantity + it.quantity, available := r.available + it.quantity })

/-- Replace the order with the given id in the order table. -/
def putOrder (orders : List Order) (id : Nat) (o : Order) : List Order :=
  orders.map (fun x => if x.id == id then o else x)

/-- The inventory side effect of an order status change: the cancellation
loop for CANCELLED, the restock loop for RETURNED, each only when a
fulfillment warehouse is set; no inventory access otherwise. -/
def orderInvUpdate (ns : OrderStatus) (fw : Option Nat) (items : List OrderItem)
    (m : InvMap) : Except String InvMap :=
  match ns, fw with
  | .CANCELLED, some w => releaseReservedLoop w items m
  | .RETURNED, some w => restockLoop w items m
  | _, _ => .ok m

/-- The status-transition branch of `updateOrderService`: guard the requested
status against the adjacency table, run the inventory side effect, then
persist the order with its new status. -/
def applyOrderStatus (db : Db) (id : Nat) (ord : Order) (ns : OrderStatus) :
    Except String (Db × Order) :=
  if ns ∉ validTransitions ord.status then
    .error "Invalid status transition"
  else
    match orderInvUpdate ns ord.fulfillmentWarehouseId ord.items db.inventory with
    | .error e => .error e
    | .ok inv' =>
      let updated : Order := { ord with status := ns }
      .ok ({ db with inventory := inv', orders := putOrder db.orders id updated }, updated)

/-- `updateOrderService`, restricted to the `status` field of the request
(the only field the claims are about): look the order up; when a status is
requested, apply `applyOrderStatus`; otherwise persist the order unchanged. -/
def updateOrderService (db : Db) (id : Nat) (newStatus : Option OrderStatus) :
    Except String (Db × Order) :=
  match db.orders.find? (fun o => o.id == id) with
  | none => .error "Order not found"
  | some existingOrder =>
    match newStatus with
    | none =>
      .ok ({ db with orders := putOrder db.orders id existingOrder }, existingOrder)
    | some ns => applyOrderStatus db id existingOrder ns

/-! ## Theorems -/

/-- If some item of the list is insufficiently stocked, the stock-check loop
throws an `Insufficient stock` error (for the first such item). -/
theorem checkStock_error_of_bad (inv : InvMap) (wid : Nat) (items : List TxItemInput)
    (h : ∃ it ∈ items, insufficientFor inv wid it = true) :
    ∃ pid, checkStock inv wid items = .error (insufficientMsg pid) := by
  induction items with
  | nil => simp at h
  | cons a rest ih =>
    by_cases ha : insufficientFor inv wid a = true
    · exact ⟨a.productId, by simp [checkStock, ha]⟩
    · obtain ⟨it, hmem, hbad⟩ := h
      rcases List.mem_cons.mp hmem with rfl | hmem
      · exact absurd hbad ha
      · obtain ⟨pid, hp⟩ := ih ⟨it, hmem, hbad⟩
        exact ⟨pid, by simp [checkStock, ha, hp]⟩

/-- C1: a STOCK_OUT, WASTE or RECYCLING transaction whose items include one
with a missing inventory row or with `available < quantity` fails with an
`Insufficient stock` error. The error is raised before anything is persisted
and aborts the surrounding database transaction, so no inventory row, no
transaction and no transaction items are written (in this model an
`Except.error` returns no `Db` at all). -/
theorem stockOut_insufficient_rejected (db : Db) (newId : Nat) (ty : TxType)
    (wid uid : Nat) (items : List TxItemInput)
    (hty : ty ∈ stockOutTypes)
    (hw : wid ∈ db.warehouses) (hu : uid ∈ db.users)
    (hp : items.all (fun it => decide (it.productId ∈ db.products)) = true)
    (hbad : ∃ it ∈ items, insufficientFor db.inventory wid it = true) :
    ∃ pid, createTransactionService db newId ty wid uid items =
      .error (insufficientMsg pid) := by
  obtain ⟨pid, hcs⟩ := checkStock_error_of_bad db.inventory wid items hbad
  refine ⟨pid, ?_⟩
  unfold createTransactionService validateCreateTx
  simp [hw, hu, hp, hty, hcs]

/-- Witness for C1: a concrete STOCK_OUT of 5 units against a row with
`available = 2` is rejected. -/
def c1Db : Db :=
  { warehouses := [1], users := [1], products := [1],
    inventory := fun k => if k = (1, 1) then some ⟨10, 8, 2⟩ else none,
    transactions := [], transfers := [], orders := [] }

theorem stockOut_insufficient_rejected_witness :
    (TxType.STOCK_OUT ∈ stockOutTypes) ∧
    ∃ pid, createTransactionService c1Db 1 .STOCK_OUT 1 1 [⟨1, 5⟩] =
      .error (insufficientMsg pid) :=
  ⟨by decide,
   stockOut_insufficient_rejected c1Db 1 .STOCK_OUT 1 1 [⟨1, 5⟩]
     (by decide) (by decide) (by decide) (by decide) (by decide)⟩

/-- C8: a requested order status that is not in the adjacency table for the
order's current status is rejected with an error; the error aborts the
surrounding database transaction, so the order's status is unchanged (in this
model an `Except.error` returns no `Db`). -/
theorem order_illegal_transition_rejected (db : Db) (id : Nat) (ord : Order)
    (ns : OrderStatus)
    (hfind : db.orders.find? (fun o => o.id == id) = some ord)
    (hns : ns ∉ validTransitions ord.status) :
    updateOrderService db id (some ns) = .error "Invalid status transition" := by
  unfold updateOrderService
  rw [hfind]
  simp [applyOrderStatus, hns]

/-- Witness for C8: asking to move a NEW order directly to SHIPPED fails. -/
def c8Db : Db :=
  { warehouses := [], users := [], products := [],
    inventory := fun _ => none, transactions := [], transfers := [],
    orders := [⟨1, .NEW, none, []⟩] }

theorem order_illegal_transition_rejected_witness :
    (OrderStatus.SHIPPED ∉ validTransitions OrderStatus.NEW) ∧
    updateOrderService c8Db 1 (some .SHIPPED) = .error "Invalid status transition" :=
  ⟨by decide,
   order_illegal_transition_rejected c8Db 1 ⟨1, .NEW, none, []⟩ .SHIPPED rfl (by decide)⟩

/-- If some item of the list is short against the source warehouse's
`quantity`, the transfer-creation stock loop throws. -/
theorem checkTransferStock_error_of_short (inv : InvMap) (src : Nat)
    (items : List TransferItem)
    (h : ∃ it ∈ items, transferShortFor inv src it = true) :
    ∃ e, checkTransferStock inv src items = .error e := by
  induction items with
  | nil => simp at h
  | cons a rest ih =>
    cases hrow : inv (src, a.productId) with
    | none =>
      exact ⟨"Product " ++ toString a.productId ++ " not available in source warehouse",
        by simp [checkTransferStock, hrow]⟩
    | some r =>
      by_cases hq : r.quantity < a.quantity
      · exact ⟨"Insufficient stock for product " ++ toString a.productId,
          by simp [checkTransferStock, hrow, hq]⟩
      · obtain ⟨it, hmem, hbad⟩ := h
        rcases List.mem_cons.mp hmem with rfl | hmem
        · unfold transferShortFor at hbad
          rw [hrow] at hbad
          simp [hq] at hbad
        · obtain ⟨e, he⟩ := ih ⟨it, hmem, hbad⟩
          exact ⟨e, by simp [checkTransferStock, hrow, hq, he]⟩

/-- Counterexample to C6: the stock check of `createTransferService` compares
the requested quantity against the row's `quantity`, not its `available`.
Here `available = 2 < 5` yet the creation of a transfer of 5 units
succeeds, because `quantity = 10 ≥ 5`. -/
def c6Db : Db :=
  { warehouses := [1, 2], users := [1], products := [1],
    inventory := fun k => if k = (1, 1) then some ⟨10, 8, 2⟩ else none,
    transactions := [], transfers := [], orders := [] }

theorem transfer_creation_ignores_available :
    (∃ r, c6Db.inventory (1, 1) = some r ∧ r.available < 5) ∧
    ∃ p, createTransferService c6Db 1 1 2 1 [⟨1, 5⟩] none none = .ok p :=
  ⟨⟨⟨10, 8, 2⟩, rfl, by decide⟩, ⟨_, rfl⟩⟩

/-- C6 (amended): `createTransferService` validates each line item against the
source row's total `quantity` — it fails when some item's requested quantity
exceeds it (or no source row exists) — and on success it persists the PENDING
transfer and its items without modifying any inventory row. -/
theorem transfer_creation_checks_quantity (db : Db) (newId src dst uid : Nat)
    (items : List TransferItem) (notes : Option String) (eta : Option Nat)
    (db' : Db) (tr : Transfer) :
    (src ≠ dst → src ∈ db.warehouses → dst ∈ db.warehouses → uid ∈ db.users →
      (∃ it ∈ items, transferShortFor db.inventory src it = true) →
      ∃ e, createTransferService db newId src dst uid items notes eta = .error e) ∧
    (createTransferService db newId src dst uid items notes eta = .ok (db', tr) →
      db'.inventory = db.inventory ∧ db'.transfers = db.transfers ++ [tr] ∧
      tr.status = .PENDING) := by
  constructor
  · intro hne hw1 hw2 hu hshort
    obtain ⟨e, he⟩ := checkTransferStock_error_of_short db.inventory src items hshort
    have hempty : items.isEmpty = false := by
      obtain ⟨it, hmem, _⟩ := hshort
      cases items
      · simp at hmem
      · rfl
    exact ⟨e, by unfold createTransferService; simp [hne, hempty, hw1, hw2, hu, he]⟩
  · intro hok
    unfold createTransferService at hok
    split_ifs at hok
    split at hok
    · exact Except.noConfusion hok
    · simp only [Except.ok.injEq, Prod.mk.injEq] at hok
      obtain ⟨h1, h2⟩ := hok
      subst h1
      subst h2
      exact ⟨rfl, rfl, rfl⟩

/-- Witness for the amended C6: requesting 11 units with only 10 on hand is
rejected. -/
theorem transfer_creation_checks_quantity_witness :
    ∃ e, createTransferService c6Db 1 1 2 1 [⟨1, 11⟩] none none = .error e :=
  (transfer_creation_checks_quantity c6Db 1 1 2 1 [⟨1, 11⟩] none none c6Db
    ⟨0, 0, 0, .PENDING, none, none, none, []⟩).1
    (by decide) (by decide) (by decide) (by decide) (by decide)

/-- Counterexample to C7: `updateTransferStatusService` performs no check of
the current status, so it modifies a COMPLETED transfer (here moving it back
to PENDING). -/
def c7Db : Db :=
  { warehouses := [1, 2], users := [1], products := [],
    inventory := fun _ => none, transactions := [],
    transfers := [⟨5, 1, 2, .COMPLETED, none, none, some 10, []⟩], orders := [] }

theorem completed_transfer_status_update_allowed :
    (c7Db.transfers.find? (fun t => t.id == 5) =
      some ⟨5, 1, 2, .COMPLETED, none, none, some 10, []⟩) ∧
    ∃ db' tr', updateTransferStatusService c7Db 5 .PENDING 99 = .ok (db', tr') ∧
      tr'.status = .PENDING :=
  ⟨rfl, ⟨_, _, rfl, rfl⟩⟩

/-- C7 (amended): a COMPLETED or CANCELLED transfer is rejected by
`updateTransferService` and by `completeTransferService` (the error aborts the
call, leaving the transfer unchanged), but `updateTransferStatusService`
checks nothing and updates the transfer's status anyway. -/
theorem terminal_transfer_guards (db : Db) (id : Nat) (tr : Transfer)
    (uid now : Nat) (notes : Option String) (eta : Option Nat)
    (st : Option TransferStatus) (s : TransferStatus)
    (hfind : db.transfers.find? (fun t => t.id == id) = some tr)
    (hterm : tr.status = .COMPLETED ∨ tr.status = .CANCELLED) :
    updateTransferService db id notes eta st =
      .error "Cannot update a completed or cancelled transfer" ∧
    completeTransferService db id uid now =
      .error "Transfer must be pending before completion" ∧
    ∃ db' tr', updateTransferStatusService db id s now = .ok (db', tr') ∧
      tr'.status = s := by
  have hne : tr.status ≠ .PENDING := by
    rcases hterm with h | h <;> simp [h]
  refine ⟨?_, ?_, ?_⟩
  · unfold updateTransferService
    rw [hfind]
    simp [hterm]
  · unfold completeTransferService
    rw [hfind]
    simp [hne]
  · unfold updateTransferStatusService
    rw [hfind]
    exact ⟨_, _, rfl, rfl⟩

/-- Witness for the amended C7: the COMPLETED transfer of `c7Db` is rejected
by the two guarded services and still updated by the unguarded one. -/
theorem terminal_transfer_guards_witness :
    updateTransferService c7Db 5 none none none =
      .error "Cannot update a completed or cancelled transfer" ∧
    completeTransferService c7Db 5 1 99 =
      .error "Transfer must be pending before completion" ∧
    ∃ db' tr', updateTransferStatusService c7Db 5 .IN_TRANSIT 99 = .ok (db', tr') ∧
      tr'.status = .IN_TRANSIT :=
  terminal_transfer_guards c7Db 5 ⟨5, 1, 2, .COMPLETED, none, none, some 10, []⟩
    1 99 none none none .IN_TRANSIT rfl (Or.inl rfl)

/-- The `quantity` of an inventory row, a missing row counting as 0. -/
def qty (m : InvMap) (k : Nat × Nat) : Int :=
  match m k with
  | some r => r.quantity
  | none => 0

/-- Pointwise description of one source/destination upsert pair of the
transfer-completion loop (for distinct warehouses). -/
theorem transferStep_eval (src dest : Nat) (hne : src ≠ dest) (it : TransferItem)
    (m : InvMap) (k : Nat × Nat) :
    transferStep src dest it m k =
      if k = (dest, it.productId) then
        some (match m (dest, it.productId) with
              | some r => { r with quantity := r.quantity + it.quantity }
              | none => ⟨it.quantity, 0, it.quantity⟩)
      else if k = (src, it.productId) then
        some (match m (src, it.productId) with
              | some r => { r with quantity := r.quantity - it.quantity }
              | none => ⟨-it.quantity, 0, 0⟩)
      else m k := by
  have hkey : ((dest, it.productId) : Nat × Nat) ≠ (src, it.productId) := by
    simp [Prod.ext_iff]
    intro h
    exact absurd h.symm hne
  unfold transferStep
  cases hsrc : m (src, it.productId) <;>
    simp only [setInv, if_neg hkey] <;>
    cases hdest : m (dest, it.productId) <;>
    by_cases hk1 : k = (dest, it.productId) <;>
    by_cases hk2 : k = (src, it.productId) <;>
    simp_all [setInv]

/-- The completion loop changes the source row's `quantity` by `-q` for the
item's product and leaves it alone for every other product. -/
theorem transferStep_qty_src (src dest : Nat) (hne : src ≠ dest) (it : TransferItem)
    (m : InvMap) (p : Nat) :
    qty (transferStep src dest it m) (src, p) =
      qty m (src, p) - (if it.productId = p then it.quantity else 0) := by
  rw [qty, transferStep_eval src dest hne it m (src, p)]
  have h1 : ((src, p) : Nat × Nat) ≠ (dest, it.productId) := by
    simp [Prod.ext_iff]
    intro h
    exact absurd h hne
  rw [if_neg h1]
  by_cases hp : it.productId = p
  · subst hp
    rw [if_pos rfl]
    cases hsrc : m (src, it.productId) <;> simp [qty, hsrc]
  · have h2 : ((src, p) : Nat × Nat) ≠ (src, it.productId) := by
      simp [Prod.ext_iff]
      intro h
      exact absurd h.symm hp
    rw [if_neg h2, if_neg hp, qty]
    ring

/-- The completion loop changes the destination row's `quantity` by `+q` for
the item's product and leaves it alone for every other product. -/
theorem transferStep_qty_dest (src dest : Nat) (hne : src ≠ dest) (it : TransferItem)
    (m : InvMap) (p : Nat) :
    qty (transferStep src dest it m) (dest, p) =
      qty m (dest, p) + (if it.productId = p then it.quantity else 0) := by
  rw [qty, transferStep_eval src dest hne it m (dest, p)]
  by_cases hp : it.productId = p
  · subst hp
    rw [if_pos rfl]
    cases hdest : m (dest, it.productId) <;> simp [qty, hdest]
  · have h1 : ((dest, p) : Nat × Nat) ≠ (dest, it.productId) := by
      simp [Prod.ext_iff]
      intro h
      exact absurd h.symm hp
    have h2 : ((dest, p) : Nat × Nat) ≠ (src, it.productId) := by
      simp [Prod.ext_iff]
      intro h
      exact absurd h.symm hne
    rw [if_neg h1, if_neg h2, if_neg hp, qty]
    ring

/-- Total quantity requested for one product across a transfer's items. -/
def itemsTotal : List TransferItem → Nat → Int
  | [], _ => 0
  | it :: rest, p => (if it.productId = p then it.quantity else 0) + itemsTotal rest p

/-- The whole completion loop moves, for every product, exactly the requested
total from the source warehouse's `quantity` to the destination's. -/
theorem completeLoop_qty (src dest : Nat) (hne : src ≠ dest) :
    ∀ (items : List TransferItem) (m : InvMap) (p : Nat),
      qty (items.foldl (fun m it => transferStep src dest it m) m) (src, p) =
        qty m (src, p) - itemsTotal items p ∧
      qty (items.foldl (fun m it => transferStep src dest it m) m) (dest, p) =
        qty m (dest, p) + itemsTotal items p := by
  intro items
  induction items with
  | nil => intro m p; simp [itemsTotal]
  | cons a rest ih =>
    intro m p
    simp only [List.foldl_cons, itemsTotal]
    obtain ⟨h1, h2⟩ := ih (transferStep src dest a m) p
    rw [h1, h2, transferStep_qty_src src dest hne a m p,
      transferStep_qty_dest src dest hne a m p]
    constructor <;> ring

/-- C4: completing a PENDING transfer (between distinct warehouses, by an
existing user) succeeds; for every product the source row's `quantity` drops
by the transferred total and the destination row's `quantity` rises by the
same total (destination rows being created when absent), so the per-product
sum `source.quantity + destination.quantity` is unchanged; and the transfer
is marked COMPLETED with a completion timestamp. -/
theorem complete_transfer_moves_stock (db : Db) (id uid now : Nat) (tr : Transfer)
    (hfind : db.transfers.find? (fun t => t.id == id) = some tr)
    (hst : tr.status = .PENDING) (hu : uid ∈ db.users)
    (hne : tr.sourceWarehouseId ≠ tr.destWarehouseId) :
    ∃ db' tr', completeTransferService db id uid now = .ok (db', tr') ∧
      tr'.status = .COMPLETED ∧ tr'.completedAt = some now ∧
      ∀ p, qty db'.inventory (tr.sourceWarehouseId, p) =
              qty db.inventory (tr.sourceWarehouseId, p) - itemsTotal tr.items p ∧
           qty db'.inventory (tr.destWarehouseId, p) =
              qty db.inventory (tr.destWarehouseId, p) + itemsTotal tr.items p ∧
           qty db'.inventory (tr.sourceWarehouseId, p) +
              qty db'.inventory (tr.destWarehouseId, p) =
             qty db.inventory (tr.sourceWarehouseId, p) +
              qty db.inventory (tr.destWarehouseId, p) := by
  unfold completeTransferService
  rw [hfind]
  simp only [hst, ne_eq, not_true_eq_false, if_false, hu, not_true_eq_false,
    not_false_eq_true, ite_false, ite_true]
  refine ⟨_, _, rfl, rfl, rfl, ?_⟩
  intro p
  obtain ⟨h1, h2⟩ := completeLoop_qty tr.sourceWarehouseId tr.destWarehouseId hne
    tr.items db.inventory p
  exact ⟨h1, h2, by rw [h1, h2]; ring⟩

/-- Witness for C4: completing a concrete one-item PENDING transfer of 4
units moves 4 units of quantity from warehouse 1 to warehouse 2. -/
def c4Db : Db :=
  { warehouses := [1, 2], users := [1], products := [1],
    inventory := fun k => if k = (1, 1) then some ⟨10, 0, 10⟩ else none,
    transactions := [],
    transfers := [⟨7, 1, 2, .PENDING, none, none, none, [⟨1, 4⟩]⟩], orders := [] }

theorem complete_transfer_moves_stock_witness :
    ∃ db' tr', completeTransferService c4Db 7 1 0 = .ok (db', tr') ∧
      tr'.status = .COMPLETED ∧ tr'.completedAt = some 0 ∧
      qty db'.inventory (1, 1) + qty db'.inventory (2, 1) =
        qty c4Db.inventory (1, 1) + qty c4Db.inventory (2, 1) := by
  obtain ⟨db', tr', hok, hstat, htime, hall⟩ :=
    complete_transfer_moves_stock c4Db 7 1 0 ⟨7, 1, 2, .PENDING, none, none, none, [⟨1, 4⟩]⟩
      rfl rfl (by decide) (by decide)
  exact ⟨db', tr', hok, hstat, htime, (hall 1).2.2⟩

/-- C9: `completeTransferService` checks no stock sufficiency: for a PENDING
transfer (and existing completer) it succeeds whatever the inventory holds,
and when the source row for a (single) item is absent it creates that row
with `quantity = -q` — a negative source quantity. -/
theorem complete_transfer_unchecked (db : Db) (id uid now : Nat) (tr : Transfer)
    (it : TransferItem)
    (hfind : db.transfers.find? (fun t => t.id == id) = some tr)
    (hst : tr.status = .PENDING) (hu : uid ∈ db.users) :
    ∃ db' tr', completeTransferService db id uid now = .ok (db', tr') ∧
      (tr.items = [it] → tr.sourceWarehouseId ≠ tr.destWarehouseId →
        db.inventory (tr.sourceWarehouseId, it.productId) = none →
        db'.inventory (tr.sourceWarehouseId, it.productId) =
          some ⟨-it.quantity, 0, 0⟩) := by
  unfold completeTransferService
  rw [hfind]
  simp only [hst, ne_eq, not_true_eq_false, if_false, hu, not_true_eq_false,
    not_false_eq_true, ite_false, ite_true]
  refine ⟨_, _, rfl, ?_⟩
  intro hitems hne hnone
  show (tr.items.foldl
      (fun m it => transferStep tr.sourceWarehouseId tr.destWarehouseId it m)
      db.inventory) (tr.sourceWarehouseId, it.productId) = some ⟨-it.quantity, 0, 0⟩
  rw [hitems]
  simp only [List.foldl_cons, List.foldl_nil]
  rw [transferStep_eval tr.sourceWarehouseId tr.destWarehouseId hne it db.inventory
    (tr.sourceWarehouseId, it.productId)]
  have h1 : ((tr.sourceWarehouseId, it.productId) : Nat × Nat) ≠
      (tr.destWarehouseId, it.productId) := by
    simp [Prod.ext_iff]
    intro h
    exact absurd h hne
  rw [if_neg h1, if_pos rfl, hnone]

/-- Witness for C9: completing a one-item PENDING transfer out of a warehouse
with no inventory row at all creates a source row with quantity −4. -/
def c9Db : Db :=
  { warehouses := [1, 2], users := [1], products := [1],
    inventory := fun _ => none,
    transactions := [],
    transfers := [⟨7, 1, 2, .PENDING, none, none, none, [⟨1, 4⟩]⟩], orders := [] }

theorem complete_transfer_unchecked_witness :
    ∃ db' tr', completeTransferService c9Db 7 1 0 = .ok (db', tr') ∧
      db'.inventory (1, 1) = some ⟨-4, 0, 0⟩ := by
  obtain ⟨db', tr', hok, hrow⟩ :=
    complete_transfer_unchecked c9Db 7 1 0 ⟨7, 1, 2, .PENDING, none, none, none, [⟨1, 4⟩]⟩
      ⟨1, 4⟩ rfl rfl (by decide)
  exact ⟨db', tr', hok, hrow rfl (by decide) rfl⟩

/-- Counterexample to C5: transfer completion decrements the source row's
`quantity` without touching `available`, so a row satisfying
`available = quantity − reserved` before (10 = 10 − 0) violates it after
(available 10, quantity 6, reserved 0). -/
def c5Db : Db :=
  { warehouses := [1, 2], users := [1], products := [1],
    inventory := fun k => if k = (1, 1) then some ⟨10, 0, 10⟩ else none,
    transactions := [],
    transfers := [⟨7, 1, 2, .PENDING, none, none, none, [⟨1, 4⟩]⟩], orders := [] }

theorem transfer_completion_breaks_invariant :
    (∀ k r, c5Db.inventory k = some r → r.available = r.quantity - r.reserved) ∧
    ∃ db' tr', completeTransferService c5Db 7 1 0 = .ok (db', tr') ∧
      db'.inventory (1, 1) = some ⟨6, 0, 10⟩ ∧ ¬ ((10 : Int) = 6 - 0) := by
  constructor
  · intro k r h
    have h' : (if k = (1, 1) then some (⟨10, 0, 10⟩ : Inventory) else none) = some r := h
    by_cases hk : k = (1, 1)
    · rw [if_pos hk] at h'
      injection h' with h''
      rw [← h'']
      rfl
    · rw [if_neg hk] at h'
      exact Option.noConfusion h'
  · exact ⟨_, _, rfl, by decide, by decide⟩

/-- The cancellation loop on a single-item order, when the row exists. -/
theorem releaseReservedLoop_single (w : Nat) (oit : OrderItem) (m : InvMap)
    (r : Inventory) (hrow : m (w, oit.productId) = some r) :
    releaseReservedLoop w [oit] m = .ok (setInv m (w, oit.productId)
      ⟨r.quantity, r.reserved - oit.quantity, r.available + oit.quantity⟩) := by
  simp [releaseReservedLoop, hrow]

/-- The restock loop on a single-item order, when the row exists. -/
theorem restockLoop_single (w : Nat) (oit : OrderItem) (m : InvMap)
    (r : Inventory) (hrow : m (w, oit.productId) = some r) :
    restockLoop w [oit] m = .ok (setInv m (w, oit.productId)
      ⟨r.quantity + oit.quantity, r.reserved, r.available + oit.quantity⟩) := by
  simp [restockLoop, hrow]

/-- A status other than CANCELLED and RETURNED never touches inventory. -/
theorem orderInvUpdate_other (ns : OrderStatus) (fw : Option Nat)
    (items : List OrderItem) (m : InvMap)
    (h1 : ns ≠ .CANCELLED) (h2 : ns ≠ .RETURNED) :
    orderInvUpdate ns fw items m = .ok m := by
  cases ns <;> cases fw <;> simp_all [orderInvUpdate]

/-- Without a fulfillment warehouse no status change touches inventory. -/
theorem orderInvUpdate_none (ns : OrderStatus) (items : List OrderItem) (m : InvMap) :
    orderInvUpdate ns none items m = .ok m := by
  cases ns <;> rfl

/-- C10: for a successful status change on an order, only CANCELLED (reserved
−q, available +q, quantity untouched) and RETURNED (quantity +q, available
+q, reserved untouched) modify inventory, and only when the order has a
fulfillment warehouse; every other status change — SHIPPED and DELIVERED
included — leaves the whole inventory table unchanged, so shipping or
delivering neither decrements quantity nor releases the reservation made at
order creation. -/
theorem order_update_inventory_effects (db : Db) (id : Nat) (ord : Order)
    (ns : OrderStatus) (db' : Db) (o' : Order)
    (hfind : db.orders.find? (fun o => o.id == id) = some ord)
    (hok : updateOrderService db id (some ns) = .ok (db', o')) :
    (ns ≠ .CANCELLED → ns ≠ .RETURNED → db'.inventory = db.inventory) ∧
    (ord.fulfillmentWarehouseId = none → db'.inventory = db.inventory) ∧
    (∀ w oit r, ord.items = [oit] → ord.fulfillmentWarehouseId = some w →
      db.inventory (w, oit.productId) = some r →
      (ns = .CANCELLED →
        db'.inventory (w, oit.productId) =
          some ⟨r.quantity, r.reserved - oit.quantity, r.available + oit.quantity⟩ ∧
        ∀ k, k ≠ (w, oit.productId) → db'.inventory k = db.inventory k) ∧
      (ns = .RETURNED →
        db'.inventory (w, oit.productId) =
          some ⟨r.quantity + oit.quantity, r.reserved, r.available + oit.quantity⟩ ∧
        ∀ k, k ≠ (w, oit.productId) → db'.inventory k = db.inventory k)) := by
  unfold updateOrderService at hok
  rw [hfind] at hok
  have hok' : applyOrderStatus db id ord ns = .ok (db', o') := hok
  clear hok
  unfold applyOrderStatus at hok'
  split_ifs at hok'
  split at hok'
  · exact Except.noConfusion hok'
  · rename_i inv' heq
    simp only [Except.ok.injEq, Prod.mk.injEq] at hok'
    obtain ⟨h1, h2⟩ := hok'
    subst h1
    subst h2
    refine ⟨?_, ?_, ?_⟩
    · intro hc hr
      rw [orderInvUpdate_other ns _ _ _ hc hr] at heq
      injection heq with h3
      exact h3.symm
    · intro hfw
      rw [hfw, orderInvUpdate_none] at heq
      injection heq with h3
      exact h3.symm
    · intro w oit r hitems hfw hrow
      rw [hfw, hitems] at heq
      constructor
      · intro hns
        subst hns
        rw [show orderInvUpdate .CANCELLED (some w) [oit] db.inventory =
              releaseReservedLoop w [oit] db.inventory from rfl,
          releaseReservedLoop_single w oit db.inventory r hrow] at heq
        have hinv : inv' = setInv db.inventory (w, oit.productId)
            ⟨r.quantity, r.reserved - oit.quantity, r.available + oit.quantity⟩ :=
          ((Except.ok.injEq _ _).mp heq).symm
        subst hinv
        exact ⟨by simp [setInv], fun k hk => by simp [setInv, hk]⟩
      · intro hns
        subst hns
        rw [show orderInvUpdate .RETURNED (some w) [oit] db.inventory =
              restockLoop w [oit] db.inventory from rfl,
          restockLoop_single w oit db.inventory r hrow] at heq
        have hinv : inv' = setInv db.inventory (w, oit.productId)
            ⟨r.quantity + oit.quantity, r.reserved, r.available + oit.quantity⟩ :=
          ((Except.ok.injEq _ _).mp heq).symm
        subst hinv
        exact ⟨by simp [setInv], fun k hk => by simp [setInv, hk]⟩

/-- Witness for C10: cancelling a one-item NEW order with fulfillment
warehouse 1 moves 3 units from `reserved` back to `available`. -/
def c10Db : Db :=
  { warehouses := [1], users := [1], products := [1],
    inventory := fun k => if k = (1, 1) then some ⟨10, 4, 6⟩ else none,
    transactions := [], transfers := [],
    orders := [⟨1, .NEW, some 1, [⟨1, 3⟩]⟩] }

theorem order_update_inventory_effects_witness :
    ∃ db' o', updateOrderService c10Db 1 (some .CANCELLED) = .ok (db', o') ∧
      db'.inventory (1, 1) = some ⟨10, 1, 9⟩ := by
  have h := order_update_inventory_effects c10Db 1 ⟨1, .NEW, some 1, [⟨1, 3⟩]⟩
    .CANCELLED _ _ rfl rfl
  refine ⟨_, _, rfl, ?_⟩
  have h2 := (h.2.2 1 ⟨1, 3⟩ ⟨10, 4, 6⟩ rfl rfl rfl).1 rfl
  simpa using h2.1

/-- A successful `createTransactionService` call returns exactly the state
built by the persistence phase. -/
theorem createTx_ok_inv (db : Db) (newId : Nat) (ty : TxType) (wid uid : Nat)
    (items : List TxItemInput) (db' : Db) (txn : Transaction)
    (hok : createTransactionService db newId ty wid uid items = .ok (db', txn)) :
    db' = (applyCreateTx db newId ty wid items).1 ∧
    txn = (applyCreateTx db newId ty wid items).2 := by
  unfold createTransactionService at hok
  split at hok
  · exact Except.noConfusion hok
  · simp only [Except.ok.injEq] at hok
    exact ⟨(congrArg Prod.fst hok).symm, (congrArg Prod.snd hok).symm⟩

/-- C2: for a validated single-item transaction, the item's inventory row is
updated exactly by type — STOCK_IN/RETURN add q to `quantity` and
`available` (creating the row as `⟨q, 0, q⟩` when absent), STOCK_OUT, WASTE
and RECYCLING subtract q from both, and ADJUSTMENT sets `quantity := q`,
clamps `available := max 0 (q − reserved)` and records the previous quantity
on the transaction item. `reserved` is untouched in every case. -/
theorem tx_inventory_update_by_type (db : Db) (newId : Nat) (ty : TxType)
    (wid uid : Nat) (items : List TxItemInput) (db' : Db) (txn : Transaction)
    (it : TxItemInput) (hits : items = [it])
    (hok : createTransactionService db newId ty wid uid items = .ok (db', txn)) :
    (∀ r, db.inventory (wid, it.productId) = some r →
      ((ty = .STOCK_IN ∨ ty = .RETURN) →
        db'.inventory (wid, it.productId) =
          some { r with quantity := r.quantity + it.quantity,
                        available := r.available + it.quantity }) ∧
      ((ty = .STOCK_OUT ∨ ty = .WASTE ∨ ty = .RECYCLING) →
        db'.inventory (wid, it.productId) =
          some { r with quantity := r.quantity - it.quantity,
                        available := r.available - it.quantity }) ∧
      (ty = .ADJUSTMENT →
        db'.inventory (wid, it.productId) =
          some { r with quantity := it.quantity,
                        available := max 0 (it.quantity - r.reserved) } ∧
        txn.items = [⟨it.productId, it.quantity, some r.quantity, some it.quantity⟩])) ∧
    (db.inventory (wid, it.productId) = none →
      (ty = .STOCK_IN ∨ ty = .RETURN) →
      db'.inventory (wid, it.productId) = some ⟨it.quantity, 0, it.quantity⟩) := by
  subst hits
  obtain ⟨hdb, htxn⟩ := createTx_ok_inv db newId ty wid uid [it] db' txn hok
  subst hdb
  subst htxn
  constructor
  · intro r hrow
    refine ⟨?_, ?_, ?_⟩
    · rintro (rfl | rfl) <;>
        simp [applyCreateTx, applyTxItem, hrow, setInv]
    · rintro (rfl | rfl | rfl) <;>
        simp [applyCreateTx, applyTxItem, hrow, setInv]
    · rintro rfl
      constructor <;> simp [applyCreateTx, applyTxItem, hrow, setInv]
  · intro hrow hty
    rcases hty with rfl | rfl <;>
      simp [applyCreateTx, applyTxItem, hrow, setInv]

/-- Witness for C2: a STOCK_IN of 5 units onto a row `⟨10, 0, 10⟩` yields
`⟨15, 0, 15⟩`. -/
def c2Db : Db :=
  { warehouses := [1], users := [1], products := [1],
    inventory := fun k => if k = (1, 1) then some ⟨10, 0, 10⟩ else none,
    transactions := [], transfers := [], orders := [] }

theorem tx_inventory_update_by_type_witness :
    ∃ db' txn, createTransactionService c2Db 1 .STOCK_IN 1 1 [⟨1, 5⟩] = .ok (db', txn) ∧
      db'.inventory (1, 1) = some ⟨15, 0, 15⟩ := by
  refine ⟨_, _, rfl, ?_⟩
  have h := tx_inventory_update_by_type c2Db 1 .STOCK_IN 1 1 [⟨1, 5⟩] _ _ ⟨1, 5⟩ rfl rfl
  have h2 := (h.1 ⟨10, 0, 10⟩ rfl).1 (Or.inl rfl)
  simpa using h2

/-- C5 (amended): a successful single-item transaction creation preserves the
invariant `available = quantity − reserved` on the affected row, provided the
row satisfied it before the call and, for ADJUSTMENT, the new quantity is at
least the row's `reserved` (the clamp `max 0 (q − reserved)` is exact then);
a row created by an inbound transaction satisfies the invariant outright.
(The other mutating operations do not guarantee the invariant: see the
counterexample, where transfer completion changes `quantity` while leaving
`available` untouched.) -/
theorem tx_create_preserves_invariant (db : Db) (newId : Nat) (ty : TxType)
    (wid uid : Nat) (items : List TxItemInput) (db' : Db) (txn : Transaction)
    (it : TxItemInput) (hits : items = [it])
    (hok : createTransactionService db newId ty wid uid items = .ok (db', txn)) :
    (∀ r, db.inventory (wid, it.productId) = some r →
      r.available = r.quantity - r.reserved →
      (ty = .ADJUSTMENT → r.reserved ≤ it.quantity) →
      ∀ r', db'.inventory (wid, it.productId) = some r' →
        r'.available = r'.quantity - r'.reserved) ∧
    (db.inventory (wid, it.productId) = none →
      ∀ r', db'.inventory (wid, it.productId) = some r' →
        r'.available = r'.quantity - r'.reserved) := by
  subst hits
  obtain ⟨hdb, htxn⟩ := createTx_ok_inv db newId ty wid uid [it] db' txn hok
  subst hdb
  subst htxn
  constructor
  · intro r hrow hinv hadj r' hr'
    obtain ⟨rq, rr, ra⟩ := r
    have hinv' : ra = rq - rr := hinv
    cases ty <;>
      simp only [applyCreateTx, applyTxItem, List.map_cons, List.map_nil,
        List.foldl_cons, List.foldl_nil, hrow, setInv, if_true, ite_true,
        Option.some.injEq] at hr' <;>
      subst hr'
    · show ra + it.quantity = rq + it.quantity - rr
      omega
    · show ra - it.quantity = rq - it.quantity - rr
      omega
    · have hle : rr ≤ it.quantity := hadj rfl
      show max 0 (it.quantity - rr) = it.quantity - rr
      omega
    · show ra + it.quantity = rq + it.quantity - rr
      omega
    · show ra - it.quantity = rq - it.quantity - rr
      omega
    · show ra - it.quantity = rq - it.quantity - rr
      omega
  · intro hrow r' hr'
    cases ty <;>
      simp only [applyCreateTx, applyTxItem, List.map_cons, List.map_nil,
        List.foldl_cons, List.foldl_nil, hrow, setInv, if_true, ite_true,
        if_false, ite_false, reduceCtorEq, or_self, or_false, false_or,
        Option.some.injEq] at hr'
    · subst hr'
      show (it.quantity : Int) = it.quantity - 0
      omega
    · subst hr'
      show (it.quantity : Int) = it.quantity - 0
      omega

/-- Witness for the amended C5: an ADJUSTMENT to 7 units on the row
`⟨10, 2, 8⟩` (which satisfies `8 = 10 − 2`, with `2 ≤ 7`) leaves a row
satisfying the invariant. -/
theorem tx_create_preserves_invariant_witness :
    ∃ db' txn, createTransactionService c2Db 1 .ADJUSTMENT 1 1 [⟨1, 7⟩] = .ok (db', txn) ∧
      ∀ r', db'.inventory (1, 1) = some r' → r'.available = r'.quantity - r'.reserved := by
  refine ⟨_, _, rfl, ?_⟩
  have h := tx_create_preserves_invariant c2Db 1 .ADJUSTMENT 1 1 [⟨1, 7⟩] _ _ ⟨1, 7⟩ rfl rfl
  exact h.1 ⟨10, 0, 10⟩ rfl (by decide) (fun _ => by decide)

/-- `find?` on a list extended with one fresh element finds that element when
nothing before it matches. -/
theorem find?_append_single {α : Type} (p : α → Bool) (l : List α) (x : α)
    (hl : ∀ t ∈ l, p t = false) (hx : p x = true) :
    (l ++ [x]).find? p = some x := by
  induction l with
  | nil => simp [List.find?, hx]
  | cons a l ih =>
    have ha := hl a (List.mem_cons_self a l)
    rw [List.cons_append, List.find?_cons_of_neg _ (by simp [ha])]
    exact ih (fun t ht => hl t (List.mem_cons_of_mem a ht))

/-- C3: creating a single-item transaction of any type and then deleting it
restores the affected inventory row exactly — STOCK_IN/RETURN are subtracted
back, STOCK_OUT/WASTE/RECYCLING are added back, and ADJUSTMENT restores the
recorded `previousQty` with `available` recomputed as
`max 0 (previousQty − reserved)`, which is the original `available` whenever
the row's `available` equalled that clamp before the transaction (as the
claim's own recomputation rule states). The transaction id must be fresh so
the deletion finds the transaction just created. -/
theorem tx_create_delete_roundtrip (db : Db) (newId : Nat) (ty : TxType)
    (wid uid : Nat) (it : TxItemInput) (db₁ : Db) (txn : Transaction) (r : Inventory)
    (hok : createTransactionService db newId ty wid uid [it] = .ok (db₁, txn))
    (hfresh : ∀ t ∈ db.transactions, (t.id == newId) = false)
    (hrow : db.inventory (wid, it.productId) = some r)
    (hadj : ty = .ADJUSTMENT → r.available = max 0 (r.quantity - r.reserved)) :
    ∃ db₂, deleteTransactionService db₁ txn.id = .ok db₂ ∧
      db₂.inventory (wid, it.productId) = some r := by
  obtain ⟨hdb, htxn⟩ := createTx_ok_inv db newId ty wid uid [it] db₁ txn hok
  subst hdb
  subst htxn
  have hid : ((applyCreateTx db newId ty wid [it]).2).id = newId := rfl
  rw [hid]
  have hfind : ((applyCreateTx db newId ty wid [it]).1).transactions.find?
      (fun t => t.id == newId) = some (applyCreateTx db newId ty wid [it]).2 :=
    find?_append_single _ db.transactions _ hfresh (beq_self_eq_true newId)
  unfold deleteTransactionService
  rw [hfind]
  refine ⟨_, rfl, ?_⟩
  obtain ⟨rq, rr, ra⟩ := r
  cases ty <;>
    simp only [applyCreateTx, applyTxItem, reverseTxItem, List.map_cons,
      List.map_nil, List.foldl_cons, List.foldl_nil, hrow, setInv, if_true,
      ite_true, if_false, ite_false, reduceCtorEq, Option.some.injEq,
      Inventory.mk.injEq] <;>
    try exact ⟨by omega, trivial, by omega⟩
  have h9 : ra = max 0 (rq - rr) := hadj rfl
  exact ⟨trivial, trivial, by omega⟩

/-- Witness for C3: an ADJUSTMENT to 7 units on the row `⟨10, 2, 8⟩`, then
deleting the transaction, restores `⟨10, 2, 8⟩`. -/
def c3Db : Db :=
  { warehouses := [1], users := [1], products := [1],
    inventory := fun k => if k = (1, 1) then some ⟨10, 2, 8⟩ else none,
    transactions := [], transfers := [], orders := [] }

theorem tx_create_delete_roundtrip_witness :
    ∃ db₂, deleteTransactionService
        (applyCreateTx c3Db 1 .ADJUSTMENT 1 [⟨1, 7⟩]).1
        ((applyCreateTx c3Db 1 .ADJUSTMENT 1 [⟨1, 7⟩]).2).id = .ok db₂ ∧
      db₂.inventory (1, 1) = some ⟨10, 2, 8⟩ := by
  exact tx_create_delete_roundtrip c3Db 1 .ADJUSTMENT 1 1 ⟨1, 7⟩ _ _ ⟨10, 2, 8⟩
    rfl (by simp [c3Db]) rfl (by decide)

end IMS
